import Mathlib

/-!
Shallow embedding of the `http_redirect` crate (src/redirect.rs, src/service.rs,
src/lib.rs, src/layer.rs) together with the fragments of the external `http`
crate that the source calls into (`Authority::from_str`, `Uri::from_parts`,
`Uri`'s `Display`, `HeaderMap::get`, `HeaderValue::to_str`).

Conventions of the embedding:
- Rust panics (`unwrap` on `None`/`Err`) are modelled by returning `none`.
- `&mut` receivers are modelled by returning the updated value.
- Machine-level byte strings (header values) are `List Nat` of byte values.
- Asynchronous polling is modelled by explicit state passing: a future is a
  value, and polling it yields a `Poll` outcome together with the new state of
  the future; the waker context is an opaque type parameter.
-/

namespace HttpRedirect

/-! ## Model of the parts of the `http` crate used by the source -/

/-- Character classification of the `URI_CHARS` table of the `http` crate
(`uri/mod.rs`): `true` for bytes the table maps to themselves, `false` for
bytes it maps to `0` (with `%` handled separately by the caller). -/
def uriCharAllowed (c : Char) : Bool :=
  c.isAlphanum ||
    [33, 35, 36, 38, 39, 40, 41, 42, 43, 44, 45, 46, 47, 58, 59, 61, 63, 64,
      91, 93, 95, 124, 126].contains c.toNat

/-- Running state of `http::uri::Authority::parse`: the colon count, bracket
flags and percent flag it threads through the byte loop. -/
structure AuthParseState where
  colonCnt : Nat
  startBracket : Bool
  endBracket : Bool
  hasPercent : Bool
  deriving Repr, DecidableEq

/-- One step of the byte loop of `http::uri::Authority::parse`.  `none` models
an early `Err` return.  The arms mirror the Rust `match` on `URI_CHARS[b]`:
`/ ? #` end the authority early (which `from_str` then rejects because the
whole string must be consumed), `:` counts, `[ ] @` manage bracket/userinfo
state, `%` sets the percent flag, and any byte the table maps to `0` is an
invalid URI character. -/
def authorityParseStep (st : AuthParseState) (c : Char) : Option AuthParseState :=
  if c = Char.ofNat 47 || c = Char.ofNat 63 || c = Char.ofNat 35 then
    -- '/', '?', '#': authority ends before the end of the string;
    -- `from_str` rejects this (ErrorKind::InvalidUriChar), so fail here.
    none
  else if c = Char.ofNat 58 then
    -- ':'
    some { st with colonCnt := st.colonCnt + 1 }
  else if c = Char.ofNat 91 then
    -- '['
    if st.hasPercent || st.startBracket then none
    else some { st with startBracket := true }
  else if c = Char.ofNat 93 then
    -- ']'
    if st.endBracket then none
    else some { st with endBracket := true, colonCnt := 0, hasPercent := false }
  else if c = Char.ofNat 64 then
    -- '@': what came before was userinfo, so forget colons and percents
    some { st with colonCnt := 0, hasPercent := false }
  else if c = Char.ofNat 37 then
    -- '%'
    some { st with hasPercent := true }
  else if uriCharAllowed c then
    some st
  else
    none

/-- Model of `http::uri::Authority::from_str` (via `Authority::parse` plus the
whole-string check of `create_authority`): an authority is kept verbatim as its
string when it parses, `none` models the `Err` case.  After the byte loop the
parser rejects unbalanced brackets, more than one (non-userinfo, non-IPv6)
colon, a trailing `@`, and a percent outside userinfo/brackets. -/
def Authority.fromStr (s : String) : Option String :=
  if s.isEmpty then none
  else
    match s.data.foldlM authorityParseStep
        { colonCnt := 0, startBracket := false, endBracket := false, hasPercent := false } with
    | none => none
    | some st =>
      if st.startBracket ≠ st.endBracket then none
      else if st.colonCnt > 1 then none
      else if s.data.getLast? = some (Char.ofNat 64) then none
      else if st.hasPercent then none
      else some s

/-- Model of `http::uri::PathAndQuery`: the path component and the optional
query component of a URI. -/
structure PathAndQuery where
  path : String
  query : Option String
  deriving Repr, DecidableEq

/-- String rendering of a `PathAndQuery`, as in the `Display` impl of
`http::Uri` (path, then `?query` when a query is present). -/
def PathAndQuery.toString (pq : PathAndQuery) : String :=
  pq.path ++ (match pq.query with | some q => "?" ++ q | none => "")

/-- Model of `http::Uri` (and of `http::uri::Parts`, which carries the same
three components): optional scheme (stored normalized, lowercase, by the
`http` parser), optional authority, optional path-and-query. -/
structure Uri where
  scheme : Option String
  authority : Option String
  pathAndQuery : Option PathAndQuery
  deriving Repr, DecidableEq

/-- Model of `http::Uri::from_parts` (`TryFrom<Parts> for Uri`): when a scheme
is present, an authority and a path-and-query must be present too; `none`
models the `Err` case. -/
def Uri.fromParts (p : Uri) : Option Uri :=
  if p.scheme.isSome then
    if p.authority.isNone then none
    else if p.pathAndQuery.isNone then none
    else some p
  else some p

/-- Model of the `Display` impl of `http::Uri`: `scheme://`, then the
authority, then the path, then `?query` when a query is present. -/
def Uri.toString (u : Uri) : String :=
  (match u.scheme with | some s => s ++ "://" | none => "") ++
    u.authority.getD "" ++
    (match u.pathAndQuery with | some pq => pq.toString | none => "")

/-- Model of `http::HeaderValue`: an opaque byte string. -/
abbrev HeaderValue := List Nat

/-- Model of `http::HeaderValue::to_str`: succeeds exactly when every byte is
visible ASCII (32..126) or horizontal tab, yielding the bytes as a string;
`none` models the `Err(ToStrError)` case. -/
def HeaderValue.toStr (v : HeaderValue) : Option String :=
  if v.all (fun b => (decide (32 ≤ b) && decide (b < 127)) || b == 9) then
    some (String.mk (v.map Char.ofNat))
  else none

/-- Case-insensitive (ASCII) equality of header names, as the `http` crate's
header-name normalization gives: both names lowercased, then compared. -/
def headerNamesMatch (a b : String) : Bool :=
  a.data.map Char.toLower == b.data.map Char.toLower

/-- Model of `http::HeaderMap::get` with a string key: header-name lookup is
case-insensitive, returning the first value stored under the name. -/
def headerGet (headers : List (String × HeaderValue)) (name : String) :
    Option HeaderValue :=
  (headers.find? (fun p => headerNamesMatch p.1 name)).map (·.2)

/-- Model of `http::Request`: the URI, the header map and the body. -/
structure Request (B : Type) where
  uri : Uri
  headers : List (String × HeaderValue)
  body : B
  deriving Repr, DecidableEq

/-- Model of `http::Response`: status code, headers (as name/value strings,
which is all the source ever inserts) and body. -/
structure Response (B : Type) where
  status : Nat
  headers : List (String × String)
  body : B
  deriving Repr, DecidableEq

/-! ## src/redirect.rs -/

/-- The `HttpsAndHostRedirect` policy of src/redirect.rs: its only state is
the configured host string (the `PhantomData` field carries no data). -/
structure HttpsAndHostRedirect where
  host : String
  deriving Repr, DecidableEq

/-- `HttpsAndHostRedirect::new` (src/redirect.rs lines 13-20): stores the
argument's string form verbatim; it performs no validation and cannot fail. -/
def HttpsAndHostRedirect.new (host : String) : HttpsAndHostRedirect :=
  { host := host }

/-- The `is_https_uri` test of `redirect` (src/redirect.rs lines 39-43): the
request URI's scheme equals `https`; an absent scheme counts as `false`. -/
def isHttpsUri {B : Type} (request : Request B) : Bool :=
  (request.uri.scheme.map (fun v => v == "https")).getD false

/-- The `is_https_forwarded` test of `redirect` (src/redirect.rs lines 46-52):
the `x-forwarded-proto` header is present, its bytes convert to a string, and
that string equals `https`; every failure along the way yields `false`. -/
def isHttpsForwarded {B : Type} (request : Request B) : Bool :=
  ((((headerGet request.headers "x-forwarded-proto").map
    HeaderValue.toStr).bind id).map (fun v => v == "https")).getD false

/-- The `target_uri` block of `redirect` (src/redirect.rs lines 60-65): clone
the request URI's parts, replace the scheme by `https` and the authority by the
configured host, and reassemble.  `none` models a panic of either `unwrap`
(`Authority::from_str(..).unwrap()` or `Uri::from_parts(..).unwrap()`). -/
def HttpsAndHostRedirect.targetUri {B : Type} (self : HttpsAndHostRedirect)
    (request : Request B) : Option Uri :=
  match Authority.fromStr self.host with
  | none => none
  | some auth =>
    Uri.fromParts
      { scheme := some "https", authority := some auth,
        pathAndQuery := request.uri.pathAndQuery }

/-- `<HttpsAndHostRedirect as Redirector>::redirect` (src/redirect.rs lines
37-73).  The `&mut` request is returned alongside the outcome (this policy
never mutates it); `Ok(())` means continue, `Err(response)` means intercept.
`none` models a panic while building the target URI.  The response is built as
the `Response::builder()` chain does: status 301, a single `location` header
holding the target URI's string rendering, and the default body (that chain's
final `unwrap` cannot fail: the status and header name are literals and a URI
rendering is a valid header value). -/
def HttpsAndHostRedirect.redirect {B C : Type} [Inhabited C]
    (self : HttpsAndHostRedirect) (request : Request B) :
    Option (Request B × Except (Response C) Unit) :=
  if isHttpsUri request || isHttpsForwarded request then
    some (request, Except.ok ())
  else
    match self.targetUri request with
    | none => none
    | some target_uri =>
      some (request, Except.error
        { status := 301,
          headers := [("location", target_uri.toString)],
          body := default })

/-! ## src/service.rs -/

/-- Model of `std::task::Poll`. -/
inductive Poll (α : Type) where
  | ready (a : α)
  | pending
  deriving Repr, DecidableEq

/-- The `Kind` enum of src/service.rs (lines 70-81): either the downstream
future, or an at-most-once response slot. -/
inductive Kind (F B : Type) where
  | future (future : F)
  | redirect (response : Option (Response B))
  deriving Repr, DecidableEq

/-- The `ResponseFuture` of src/service.rs (lines 46-52): a wrapper around
`Kind`. -/
structure ResponseFuture (F B : Type) where
  kind : Kind F B
  deriving Repr, DecidableEq

/-- `ResponseFuture::future` (src/service.rs lines 55-59). -/
def ResponseFuture.future {F B : Type} (f : F) : ResponseFuture F B :=
  { kind := Kind.future f }

/-- `ResponseFuture::redirect` (src/service.rs lines 61-67): the response is
stored in a `Some` slot. -/
def ResponseFuture.redirect {F B : Type} (res : Response B) : ResponseFuture F B :=
  { kind := Kind.redirect (some res) }

/-- `<ResponseFuture as Future>::poll` (src/service.rs lines 89-97).  Polling
the inner future `F` is an opaque operation supplied as `pollF` (state
passing: it yields the outcome and the future's new state); `Ctx` is the
opaque waker context.  In the `Future` arm the inner poll outcome passes
through unchanged; in the `Redirect` arm `response.take().unwrap()` empties
the slot and resolves `Ready(Ok(response))`, and panics (modelled `none`) when
the slot is already empty. -/
def ResponseFuture.poll {F B E Ctx : Type}
    (pollF : F → Ctx → Poll (Except E (Response B)) × F)
    (self : ResponseFuture F B) (cx : Ctx) :
    Option (Poll (Except E (Response B)) × ResponseFuture F B) :=
  match self.kind with
  | Kind.future f =>
    let (p, f2) := pollF f cx
    some (p, { kind := Kind.future f2 })
  | Kind.redirect response =>
    match response with
    | some res => some (Poll.ready (Except.ok res), { kind := Kind.redirect none })
    | none => none

/-- The `Redirect` middleware of src/service.rs (lines 13-17): an owned
downstream service and an owned redirector. -/
structure RedirectService (S R : Type) where
  inner : S
  redirect : R
  deriving Repr, DecidableEq

/-- `Redirect::new` (src/service.rs lines 19-23). -/
def RedirectService.new {S R : Type} (inner : S) (redirect : R) :
    RedirectService S R :=
  { inner := inner, redirect := redirect }

/-- `Redirect::poll_ready` (src/service.rs lines 34-36): delegate to the inner
service's `poll_ready`, supplied as the opaque state-passing operation
`innerPollReady`. -/
def RedirectService.pollReady {S R E Ctx : Type}
    (innerPollReady : S → Ctx → Poll (Except E Unit) × S)
    (self : RedirectService S R) (cx : Ctx) :
    Poll (Except E Unit) × RedirectService S R :=
  let (p, inner2) := innerPollReady self.inner cx
  (p, { self with inner := inner2 })

/-- A value of the `Redirector<B>` trait of src/lib.rs, in state-passing form:
`redirect` takes the redirector's state and the `&mut` request and yields the
(possibly mutated) request, the `Ok(())`/`Err(response)` outcome, and the
redirector's new state — or `none` for a panic. -/
def Redirector (R B C : Type) : Type :=
  R → Request B → Option ((Request B × Except (Response C) Unit) × R)

/-- `Redirect::call` (src/service.rs lines 38-43): consult the redirector on
the `&mut` request; on `Ok(_)` call the inner service (state passing via
`innerCall`) and wrap its future in the `Future` kind; on `Err(res)` wrap the
response in the `Redirect` kind without touching the inner service.  `none`
models a panic inside the redirector. -/
def RedirectService.call {S R B C F : Type}
    (innerCall : S → Request B → F × S) (redirector : Redirector R B C)
    (self : RedirectService S R) (req : Request B) :
    Option (ResponseFuture F C × RedirectService S R) :=
  match redirector self.redirect req with
  | none => none
  | some ((req2, Except.ok ()), r2) =>
    let (fut, inner2) := innerCall self.inner req2
    some (ResponseFuture.future fut, { inner := inner2, redirect := r2 })
  | some ((_, Except.error res), r2) =>
    some (ResponseFuture.redirect res, { self with redirect := r2 })

/-- The `Redirector<B>` impl of `HttpsAndHostRedirect` (src/redirect.rs lines
31-74) packaged as a state-passing redirector: the policy's state is returned
unchanged (its `redirect` never mutates `self`). -/
def HttpsAndHostRedirect.asRedirector (B C : Type) [Inhabited C] :
    Redirector HttpsAndHostRedirect B C :=
  fun self req => (self.redirect req).map (fun out => (out, self))

/-! ## Concrete values used to exercise the model -/

/-- A plain request with no scheme and no headers (what
`Request::builder().body(..)` yields: URI `/`). -/
def plainHttpRequest : Request Unit :=
  { uri := { scheme := none, authority := none,
             pathAndQuery := some { path := "/", query := none } },
    headers := [], body := () }

/-- Scenario A of the spec: `GET http://localhost/foo?x=1`, no forwarded
header. -/
def scenarioARequest : Request Unit :=
  { uri := { scheme := some "http", authority := some "localhost",
             pathAndQuery := some { path := "/foo", query := some "x=1" } },
    headers := [], body := () }

/-- A request that already has the `https` scheme. -/
def httpsRequest : Request Unit :=
  { uri := { scheme := some "https", authority := some "localhost",
             pathAndQuery := some { path := "/foo", query := none } },
    headers := [], body := () }

/-- The bytes of the string `https`. -/
def httpsBytes : HeaderValue := [104, 116, 116, 112, 115]

/-- The bytes of the string `HTTPS`. -/
def upperHttpsBytes : HeaderValue := [72, 84, 84, 80, 83]

/-- An http-scheme request carrying `x-forwarded-proto: https` under a
mixed-case header name. -/
def forwardedRequest : Request Unit :=
  { uri := { scheme := some "http", authority := some "localhost",
             pathAndQuery := some { path := "/foo", query := none } },
    headers := [("X-Forwarded-Proto", httpsBytes)], body := () }

/-- A request whose `x-forwarded-proto` value is the non-ASCII byte 200. -/
def badBytesRequest : Request Unit :=
  { uri := { scheme := none, authority := none,
             pathAndQuery := some { path := "/", query := none } },
    headers := [("x-forwarded-proto", [200])], body := () }

/-- A request whose `x-forwarded-proto` value is `HTTPS` (upper case). -/
def upperCaseRequest : Request Unit :=
  { uri := { scheme := none, authority := none,
             pathAndQuery := some { path := "/", query := none } },
    headers := [("x-forwarded-proto", upperHttpsBytes)], body := () }

/-- A trivial downstream service over unit state. -/
def unitInnerCall : Unit → Request Unit → Unit × Unit := fun s _ => ((), s)

/-- A trivial inner-future poll operation that stays pending. -/
def unitPollF : Unit → Unit → Poll (Except Unit (Response Unit)) × Unit :=
  fun f _ => (Poll.pending, f)

/-! ## Helper lemmas -/

/-- An authority accepted by `Authority.fromStr` is the input string itself. -/
theorem Authority.fromStr_eq_self {s a : String} (h : Authority.fromStr s = some a) :
    a = s := by
  unfold Authority.fromStr at h
  split at h
  · exact absurd h (by simp)
  · split at h
    · exact absurd h (by simp)
    · split at h
      · exact absurd h (by simp)
      · split at h
        · exact absurd h (by simp)
        · split at h
          · exact absurd h (by simp)
          · split at h
            · exact absurd h (by simp)
            · exact (Option.some_inj.mp h).symm

/-- A URI accepted by `Uri.fromParts` is the parts value itself. -/
theorem Uri.fromParts_eq_self {p u : Uri} (h : Uri.fromParts p = some u) : u = p := by
  unfold Uri.fromParts at h
  split at h
  · split at h
    · exact absurd h (by simp)
    · split at h
      · exact absurd h (by simp)
      · exact (Option.some_inj.mp h).symm
  · exact (Option.some_inj.mp h).symm

/-- The policy continues exactly when one of its two secure tests holds. -/
theorem redirect_continue_iff {B C : Type} [Inhabited C]
    (self : HttpsAndHostRedirect) (req : Request B) :
    HttpsAndHostRedirect.redirect (C := C) self req = some (req, Except.ok ()) ↔
      (isHttpsUri req || isHttpsForwarded req) = true := by
  unfold HttpsAndHostRedirect.redirect
  split
  · simp_all
  · constructor
    · intro h
      split at h
      · exact absurd h (by simp)
      · simp at h
    · intro h
      simp_all

/-! ## The claims -/

/-- C6: `Redirect::poll_ready` delegates to the inner service with no
translation: the outcome (ready, ready-with-error or pending) is exactly the
inner service's outcome, the redirector is untouched, and in particular the
middleware is ready if and only if the inner service is. -/
theorem c6_poll_ready_passthrough {S R E Ctx : Type}
    (innerPollReady : S → Ctx → Poll (Except E Unit) × S)
    (self : RedirectService S R) (cx : Ctx) :
    RedirectService.pollReady innerPollReady self cx =
      ((innerPollReady self.inner cx).1,
        { self with inner := (innerPollReady self.inner cx).2 }) ∧
    ((RedirectService.pollReady innerPollReady self cx).1 = Poll.ready (Except.ok ()) ↔
      (innerPollReady self.inner cx).1 = Poll.ready (Except.ok ())) := by
  exact ⟨rfl, Iff.rfl⟩

/-- C7: a `ResponseFuture` built by `ResponseFuture::redirect` resolves on its
first poll to `Ready(Ok(response))` with exactly the held response, leaving an
empty slot behind; a later poll of the emptied slot hits
`response.take().unwrap()` on `None` and panics (modelled `none`) rather than
fabricating a value. -/
theorem c7_immediate_single_resolution {F B E Ctx : Type}
    (pollF : F → Ctx → Poll (Except E (Response B)) × F)
    (res : Response B) (cx cx2 : Ctx) :
    ResponseFuture.poll pollF (ResponseFuture.redirect res) cx =
      some (Poll.ready (Except.ok res), { kind := Kind.redirect none }) ∧
    ResponseFuture.poll pollF
      ({ kind := Kind.redirect none } : ResponseFuture F B) cx2 = none := by
  exact ⟨rfl, rfl⟩

/-- C8: polling a `ResponseFuture` in the `Future` state passes the inner
future's poll outcome (pending, ready-ok or ready-error) through unchanged,
and the `Redirect` state can never surface an error: a full slot always
resolves `Ok` and an empty slot panics (modelled `none`), so only the
`Future` state can produce `Ready(Err(..))`. -/
theorem c8_forwarding_transparent {F B E Ctx : Type}
    (pollF : F → Ctx → Poll (Except E (Response B)) × F)
    (f : F) (cx : Ctx) :
    ResponseFuture.poll pollF (ResponseFuture.future f) cx =
      some ((pollF f cx).1, ResponseFuture.future (pollF f cx).2) ∧
    (∀ res : Response B,
      ResponseFuture.poll pollF
        ({ kind := Kind.redirect (some res) } : ResponseFuture F B) cx =
        some (Poll.ready (Except.ok res), { kind := Kind.redirect none })) ∧
    ResponseFuture.poll pollF
      ({ kind := Kind.redirect none } : ResponseFuture F B) cx = none := by
  exact ⟨rfl, fun res => rfl, rfl⟩

/-- The response that `redirect` synthesizes for the configured `host` and the
request's path-and-query `pq`: status 301, a single `location` header holding
the target URI's rendering, default body. -/
def redirectResponse (C : Type) [Inhabited C] (host : String) (pq : PathAndQuery) :
    Response C :=
  { status := 301,
    headers := [("location",
      Uri.toString
        { scheme := some "https", authority := some host, pathAndQuery := some pq })],
    body := default }

/-- C1 counterexample: constructing the policy from the malformed authority
string `::::` does not fail — a policy instance is produced, holding the
string verbatim — and the bad host then does cause a per-request failure: on
an insecure request, `redirect` panics (modelled `none`) at
`Authority::from_str("::::").unwrap()`. -/
theorem c1_construction_unvalidated :
    HttpsAndHostRedirect.new "::::" = ({ host := "::::" } : HttpsAndHostRedirect) ∧
    HttpsAndHostRedirect.redirect (C := Unit)
      (HttpsAndHostRedirect.new "::::") plainHttpRequest = none := by
  exact ⟨rfl, rfl⟩

/-- C1 (amended): constructing the policy never fails and validates nothing —
`new` stores any host string verbatim and always produces a policy instance;
a malformed host instead causes a per-request failure (a panic, modelled
`none`) whenever the policy must synthesize a redirect for a request that is
neither https-schemed nor forwarded-secure. -/
theorem c1_malformed_host_deferred_panic {B C : Type} [Inhabited C]
    (host : String) (req : Request B)
    (hbad : Authority.fromStr host = none)
    (hs : isHttpsUri req = false) (hf : isHttpsForwarded req = false) :
    HttpsAndHostRedirect.new host = ({ host := host } : HttpsAndHostRedirect) ∧
    HttpsAndHostRedirect.redirect (C := C) (HttpsAndHostRedirect.new host) req = none := by
  refine ⟨rfl, ?_⟩
  unfold HttpsAndHostRedirect.redirect HttpsAndHostRedirect.targetUri
  simp [hs, hf, hbad, HttpsAndHostRedirect.new]

/-- C1 witness: the amended claim at host `::::` and a plain insecure
request. -/
theorem c1_malformed_host_deferred_panic_witness :
    HttpsAndHostRedirect.new "::::" = ({ host := "::::" } : HttpsAndHostRedirect) ∧
    HttpsAndHostRedirect.redirect (C := Unit)
      (HttpsAndHostRedirect.new "::::") plainHttpRequest = none :=
  c1_malformed_host_deferred_panic "::::" plainHttpRequest rfl rfl rfl

/-- C2: a request that is neither https-schemed nor forwarded-secure is
intercepted: the policy returns `Err(response)` where the response has status
301, exactly one header — `location`, holding `https://` ++ host ++ path with
the query preserved when present — and the default body; and the middleware's
`call` then produces the `Redirect`-kind future without invoking the
downstream service (the result is the same for every `innerCall`, which the
universally quantified conjunct exhibits). -/
theorem c2_insecure_request_intercepted {B C S F : Type} [Inhabited C]
    (host : String) (req : Request B) (pq : PathAndQuery)
    (hs : isHttpsUri req = false) (hf : isHttpsForwarded req = false)
    (ha : (Authority.fromStr host).isSome = true)
    (hpq : req.uri.pathAndQuery = some pq) :
    HttpsAndHostRedirect.redirect (C := C) (HttpsAndHostRedirect.new host) req =
      some (req, Except.error (redirectResponse C host pq)) ∧
    (redirectResponse C host pq).status = 301 ∧
    (redirectResponse C host pq).headers =
      [("location", "https://" ++ host ++ pq.path ++
        (match pq.query with | some q => "?" ++ q | none => ""))] ∧
    (redirectResponse C host pq).body = (default : C) ∧
    ∀ (innerCall : S → Request B → F × S) (inner : S),
      RedirectService.call innerCall (HttpsAndHostRedirect.asRedirector B C)
        (RedirectService.new inner (HttpsAndHostRedirect.new host)) req =
        some (ResponseFuture.redirect (redirectResponse C host pq),
          RedirectService.new inner (HttpsAndHostRedirect.new host)) := by
  obtain ⟨auth, ha2⟩ := Option.isSome_iff_exists.mp ha
  have hauth := Authority.fromStr_eq_self ha2
  rw [hauth] at ha2
  have hred : HttpsAndHostRedirect.redirect (C := C) (HttpsAndHostRedirect.new host) req =
      some (req, Except.error (redirectResponse C host pq)) := by
    unfold HttpsAndHostRedirect.redirect HttpsAndHostRedirect.targetUri
    simp [hs, hf, ha2, hpq, HttpsAndHostRedirect.new, Uri.fromParts, redirectResponse]
  refine ⟨hred, rfl, ?_, rfl, ?_⟩
  · have hlit : ("https" ++ "://" : String) = "https://" := rfl
    simp [redirectResponse, Uri.toString, PathAndQuery.toString, hlit,
      String.append_assoc]
  · intro innerCall inner
    simp [RedirectService.call, HttpsAndHostRedirect.asRedirector, hred,
      RedirectService.new]

/-- C2 witness: Scenario A of the spec — `GET http://localhost/foo?x=1`
against host `localhost` is intercepted with
`Location: https://localhost/foo?x=1`. -/
theorem c2_insecure_request_intercepted_witness :
    HttpsAndHostRedirect.redirect (C := Unit)
      (HttpsAndHostRedirect.new "localhost") scenarioARequest =
      some (scenarioARequest,
        Except.error (redirectResponse Unit "localhost" { path := "/foo", query := some "x=1" })) ∧
    (redirectResponse Unit "localhost" { path := "/foo", query := some "x=1" }).status = 301 ∧
    (redirectResponse Unit "localhost" { path := "/foo", query := some "x=1" }).headers =
      [("location", "https://localhost/foo?x=1")] ∧
    (redirectResponse Unit "localhost" { path := "/foo", query := some "x=1" }).body = () ∧
    RedirectService.call unitInnerCall (HttpsAndHostRedirect.asRedirector Unit Unit)
      (RedirectService.new () (HttpsAndHostRedirect.new "localhost")) scenarioARequest =
      some (ResponseFuture.redirect
          (redirectResponse Unit "localhost" { path := "/foo", query := some "x=1" }),
        RedirectService.new () (HttpsAndHostRedirect.new "localhost")) := by
  have h := c2_insecure_request_intercepted (B := Unit) (C := Unit)
    (S := Unit) (F := Unit)
    "localhost" scenarioARequest { path := "/foo", query := some "x=1" }
    rfl rfl rfl rfl
  exact ⟨h.1, h.2.1, by rw [h.2.2.1]; rfl, h.2.2.2.1, h.2.2.2.2 unitInnerCall ()⟩

/-- C3: a request whose scheme is `https` is passed through: the policy
returns `Ok(())` with the request unmodified, `call` invokes the downstream
service exactly once with that request and wraps the resulting future in the
`Future` kind, polling that wrapper returns the downstream outcome unchanged,
and an absent scheme counts as not secure. -/
theorem c3_https_scheme_continues {B C S F : Type} [Inhabited C]
    (host : String) (req : Request B)
    (hs : req.uri.scheme = some "https") :
    HttpsAndHostRedirect.redirect (C := C) (HttpsAndHostRedirect.new host) req =
      some (req, Except.ok ()) ∧
    (∀ (innerCall : S → Request B → F × S) (inner : S),
      RedirectService.call innerCall (HttpsAndHostRedirect.asRedirector B C)
        (RedirectService.new inner (HttpsAndHostRedirect.new host)) req =
        some (ResponseFuture.future (innerCall inner req).1,
          RedirectService.new (innerCall inner req).2 (HttpsAndHostRedirect.new host))) ∧
    (∀ (E Ctx : Type) (pollF : F → Ctx → Poll (Except E (Response C)) × F)
        (ff : F) (cx : Ctx),
      ResponseFuture.poll pollF (ResponseFuture.future ff) cx =
        some ((pollF ff cx).1, ResponseFuture.future (pollF ff cx).2)) ∧
    (∀ req2 : Request B, req2.uri.scheme = none → isHttpsUri req2 = false) := by
  have hsec : isHttpsUri req = true := by simp [isHttpsUri, hs]
  have hred : HttpsAndHostRedirect.redirect (C := C) (HttpsAndHostRedirect.new host) req =
      some (req, Except.ok ()) := by
    unfold HttpsAndHostRedirect.redirect
    simp [hsec]
  refine ⟨hred, ?_, fun E Ctx pollF ff cx => rfl,
    fun req2 h2 => by simp [isHttpsUri, h2]⟩
  intro innerCall inner
  simp [RedirectService.call, HttpsAndHostRedirect.asRedirector, hred,
    RedirectService.new]

/-- C3 witness: an `https://localhost/foo` request against host `localhost`
continues, the downstream service is invoked with it, polling delegates, and
the plain schemeless request is not secure. -/
theorem c3_https_scheme_continues_witness :
    HttpsAndHostRedirect.redirect (C := Unit)
      (HttpsAndHostRedirect.new "localhost") httpsRequest =
      some (httpsRequest, Except.ok ()) ∧
    RedirectService.call unitInnerCall (HttpsAndHostRedirect.asRedirector Unit Unit)
      (RedirectService.new () (HttpsAndHostRedirect.new "localhost")) httpsRequest =
      some (ResponseFuture.future (unitInnerCall () httpsRequest).1,
        RedirectService.new (unitInnerCall () httpsRequest).2
          (HttpsAndHostRedirect.new "localhost")) ∧
    ResponseFuture.poll unitPollF (ResponseFuture.future ()) () =
      some ((unitPollF () ()).1, ResponseFuture.future (unitPollF () ()).2) ∧
    isHttpsUri plainHttpRequest = false :=
  ⟨(c3_https_scheme_continues (S := Unit) (F := Unit) (C := Unit)
      "localhost" httpsRequest rfl).1,
   (c3_https_scheme_continues (S := Unit) (F := Unit) (C := Unit)
      "localhost" httpsRequest rfl).2.1 unitInnerCall (),
   (c3_https_scheme_continues (S := Unit) (F := Unit) (C := Unit)
      "localhost" httpsRequest rfl).2.2.1 Unit Unit unitPollF () (),
   (c3_https_scheme_continues (S := Unit) (F := Unit) (C := Unit)
      "localhost" httpsRequest rfl).2.2.2 plainHttpRequest rfl⟩

/-- C4: a request whose scheme is not `https` but which carries an
`x-forwarded-proto` header (name matched case-insensitively) whose value is
the string `https` continues: the policy returns `Ok(())` and `call` invokes
the downstream service exactly once with that request. -/
theorem c4_forwarded_proto_continues {B C S F : Type} [Inhabited C]
    (host : String) (req : Request B) (v : HeaderValue)
    (_hs : isHttpsUri req = false)
    (hv : headerGet req.headers "x-forwarded-proto" = some v)
    (hstr : HeaderValue.toStr v = some "https") :
    HttpsAndHostRedirect.redirect (C := C) (HttpsAndHostRedirect.new host) req =
      some (req, Except.ok ()) ∧
    ∀ (innerCall : S → Request B → F × S) (inner : S),
      RedirectService.call innerCall (HttpsAndHostRedirect.asRedirector B C)
        (RedirectService.new inner (HttpsAndHostRedirect.new host)) req =
        some (ResponseFuture.future (innerCall inner req).1,
          RedirectService.new (innerCall inner req).2 (HttpsAndHostRedirect.new host)) := by
  have hfwd : isHttpsForwarded req = true := by
    simp [isHttpsForwarded, hv, hstr]
  have hred : HttpsAndHostRedirect.redirect (C := C) (HttpsAndHostRedirect.new host) req =
      some (req, Except.ok ()) := by
    unfold HttpsAndHostRedirect.redirect
    simp [hfwd]
  refine ⟨hred, ?_⟩
  intro innerCall inner
  simp [RedirectService.call, HttpsAndHostRedirect.asRedirector, hred,
    RedirectService.new]

/-- C4 witness: an http request whose header map stores the name as
`X-Forwarded-Proto` with value bytes spelling `https` continues and reaches
the downstream service. -/
theorem c4_forwarded_proto_continues_witness :
    HttpsAndHostRedirect.redirect (C := Unit)
      (HttpsAndHostRedirect.new "localhost") forwardedRequest =
      some (forwardedRequest, Except.ok ()) ∧
    RedirectService.call unitInnerCall (HttpsAndHostRedirect.asRedirector Unit Unit)
      (RedirectService.new () (HttpsAndHostRedirect.new "localhost")) forwardedRequest =
      some (ResponseFuture.future (unitInnerCall () forwardedRequest).1,
        RedirectService.new (unitInnerCall () forwardedRequest).2
          (HttpsAndHostRedirect.new "localhost")) :=
  ⟨(c4_forwarded_proto_continues (S := Unit) (F := Unit) (C := Unit)
      "localhost" forwardedRequest httpsBytes rfl rfl rfl).1,
   (c4_forwarded_proto_continues (S := Unit) (F := Unit) (C := Unit)
      "localhost" forwardedRequest httpsBytes rfl rfl rfl).2 unitInnerCall ()⟩

/-- C5: whenever the policy intercepts a request, the target URI it built
exists, the response's only header is `location` holding that URI's rendering,
that URI's scheme is `https`, and any request carrying that URI is passed
through by the same policy — a synthesized redirect target is never itself
redirected. -/
theorem c5_redirect_target_not_redirected {B C : Type} [Inhabited C]
    (host : String) (req r : Request B) (resp : Response C)
    (h : HttpsAndHostRedirect.redirect (C := C) (HttpsAndHostRedirect.new host) req =
      some (r, Except.error resp)) :
    (HttpsAndHostRedirect.targetUri (HttpsAndHostRedirect.new host) req).isSome = true ∧
    ∀ t : Uri, HttpsAndHostRedirect.targetUri (HttpsAndHostRedirect.new host) req = some t →
      resp.headers = [("location", t.toString)] ∧
      t.scheme = some "https" ∧
      ∀ req2 : Request B, req2.uri = t →
        HttpsAndHostRedirect.redirect (C := C) (HttpsAndHostRedirect.new host) req2 =
          some (req2, Except.ok ()) := by
  unfold HttpsAndHostRedirect.redirect at h
  split at h
  · simp at h
  · split at h
    · exact absurd h (by simp)
    · rename_i t heq
      simp only [Option.some_inj, Prod.mk.injEq, Except.error.injEq] at h
      obtain ⟨hr, hresp⟩ := h
      refine ⟨by rw [heq]; rfl, ?_⟩
      intro t2 ht2
      rw [heq] at ht2
      have ht : t2 = t := (Option.some_inj.mp ht2).symm
      subst ht
      have hscheme : t2.scheme = some "https" := by
        unfold HttpsAndHostRedirect.targetUri at heq
        split at heq
        · exact absurd heq (by simp)
        · have h3 := Uri.fromParts_eq_self heq
          rw [h3]
      refine ⟨by rw [← hresp], hscheme, ?_⟩
      intro req2 hu
      have hsec : isHttpsUri req2 = true := by
        simp [isHttpsUri, hu, hscheme]
      unfold HttpsAndHostRedirect.redirect
      simp [hsec]

/-- The target URI the policy builds for Scenario A with host `localhost`. -/
def scenarioTargetUri : Uri :=
  { scheme := some "https", authority := some "localhost",
    pathAndQuery := some { path := "/foo", query := some "x=1" } }

/-- A request whose URI is Scenario A's synthesized redirect target. -/
def scenarioFollowupRequest : Request Unit :=
  { uri := scenarioTargetUri, headers := [], body := () }

/-- C5 witness: Scenario A's redirect target is `https://localhost/foo?x=1`,
and resubmitting it to the same policy continues. -/
theorem c5_redirect_target_not_redirected_witness :
    (HttpsAndHostRedirect.targetUri (HttpsAndHostRedirect.new "localhost")
      scenarioARequest).isSome = true ∧
    (redirectResponse Unit "localhost" { path := "/foo", query := some "x=1" }).headers =
      [("location", scenarioTargetUri.toString)] ∧
    scenarioTargetUri.scheme = some "https" ∧
    HttpsAndHostRedirect.redirect (C := Unit) (HttpsAndHostRedirect.new "localhost")
      scenarioFollowupRequest = some (scenarioFollowupRequest, Except.ok ()) := by
  have h := c5_redirect_target_not_redirected (C := Unit) "localhost" scenarioARequest
    scenarioARequest
    (redirectResponse Unit "localhost" { path := "/foo", query := some "x=1" }) rfl
  have h2 := h.2 scenarioTargetUri rfl
  exact ⟨h.1, h2.1, h2.2.1, h2.2.2 scenarioFollowupRequest rfl⟩

/-- C9: per dispatch, `Redirect::call` consults the redirector exactly once at
exactly the incoming request (the result depends only on the redirector's
value there); on `Continue` it invokes the downstream service exactly once
with the decided request and wraps its future; on `Intercept` it returns the
`Redirect`-kind future holding the response, the downstream service is not
invoked (the result is the same for every `innerCall`), and the redirector is
not consulted again. -/
theorem c9_dispatch_effects {S R B C F : Type} (innerCall : S → Request B → F × S)
    (redirector redirector2 : Redirector R B C)
    (self : RedirectService S R) (req : Request B) :
    (redirector2 self.redirect req = redirector self.redirect req →
      RedirectService.call innerCall redirector2 self req =
        RedirectService.call innerCall redirector self req) ∧
    (∀ (req2 : Request B) (r2 : R),
      redirector self.redirect req = some ((req2, Except.ok ()), r2) →
      RedirectService.call innerCall redirector self req =
        some (ResponseFuture.future (innerCall self.inner req2).1,
          { inner := (innerCall self.inner req2).2, redirect := r2 })) ∧
    (∀ (req2 : Request B) (res : Response C) (r2 : R)
        (innerCall2 : S → Request B → F × S),
      redirector self.redirect req = some ((req2, Except.error res), r2) →
      RedirectService.call innerCall redirector self req =
        some (ResponseFuture.redirect res, { inner := self.inner, redirect := r2 }) ∧
      RedirectService.call innerCall2 redirector self req =
        RedirectService.call innerCall redirector self req) := by
  refine ⟨?_, ?_, ?_⟩
  · intro hsame
    unfold RedirectService.call
    rw [hsame]
  · intro req2 r2 hdec
    unfold RedirectService.call
    rw [hdec]
  · intro req2 res r2 innerCall2 hdec
    unfold RedirectService.call
    rw [hdec]
    exact ⟨rfl, rfl⟩

/-- A continuing redirector over unit state. -/
def contRedirector : Redirector Unit Unit Unit :=
  fun r q => some ((q, Except.ok ()), r)

/-- A second continuing redirector, written differently but agreeing with
`contRedirector` pointwise. -/
def contRedirector2 : Redirector Unit Unit Unit :=
  fun _ q => some ((q, Except.ok ()), ())

/-- A fixed response for the intercepting redirector. -/
def unitResponse : Response Unit := { status := 200, headers := [], body := () }

/-- An intercepting redirector over unit state. -/
def interceptRedirector : Redirector Unit Unit Unit :=
  fun r _ => some ((plainHttpRequest, Except.error unitResponse), r)

/-- A second trivial downstream service, distinguishable from
`unitInnerCall` only by its definition. -/
def unitInnerCall2 : Unit → Request Unit → Unit × Unit := fun _ _ => ((), ())

/-- A middleware instance over unit state. -/
def unitService : RedirectService Unit Unit := { inner := (), redirect := () }

/-- C9 witness: the dispatch-effect discipline exercised on concrete
continuing and intercepting redirectors over unit state. -/
theorem c9_dispatch_effects_witness :
    (RedirectService.call unitInnerCall contRedirector2 unitService plainHttpRequest =
      RedirectService.call unitInnerCall contRedirector unitService plainHttpRequest) ∧
    (RedirectService.call unitInnerCall contRedirector unitService plainHttpRequest =
      some (ResponseFuture.future (unitInnerCall () plainHttpRequest).1,
        { inner := (unitInnerCall () plainHttpRequest).2, redirect := () })) ∧
    (RedirectService.call unitInnerCall interceptRedirector unitService plainHttpRequest =
      some (ResponseFuture.redirect unitResponse, { inner := (), redirect := () })) ∧
    (RedirectService.call unitInnerCall2 interceptRedirector unitService plainHttpRequest =
      RedirectService.call unitInnerCall interceptRedirector unitService plainHttpRequest) :=
  ⟨(c9_dispatch_effects unitInnerCall contRedirector contRedirector2
      unitService plainHttpRequest).1 rfl,
   (c9_dispatch_effects unitInnerCall contRedirector contRedirector2
      unitService plainHttpRequest).2.1 plainHttpRequest () rfl,
   ((c9_dispatch_effects unitInnerCall interceptRedirector contRedirector
      unitService plainHttpRequest).2.2 plainHttpRequest unitResponse ()
      unitInnerCall2 rfl).1,
   ((c9_dispatch_effects unitInnerCall interceptRedirector contRedirector
      unitService plainHttpRequest).2.2 plainHttpRequest unitResponse ()
      unitInnerCall2 rfl).2⟩

/-- C10: the forwarded-proto check is total and case-sensitive — a missing
header, a value whose bytes are not visible ASCII, and any value other than
the exact string `https` all count as not forwarded-secure without any error,
a value converting to the string `s` counts exactly when `s == "https"`, and
the continue-versus-intercept decision is a function of the two secure tests
alone (requests agreeing on both get the same decision for every host). -/
theorem c10_forwarded_value_total_case_sensitive {B : Type} (req : Request B) :
    (headerGet req.headers "x-forwarded-proto" = none → isHttpsForwarded req = false) ∧
    (∀ v : HeaderValue, headerGet req.headers "x-forwarded-proto" = some v →
      HeaderValue.toStr v = none → isHttpsForwarded req = false) ∧
    (∀ (v : HeaderValue) (s : String), headerGet req.headers "x-forwarded-proto" = some v →
      HeaderValue.toStr v = some s → isHttpsForwarded req = (s == "https")) ∧
    (∀ (C : Type) [Inhabited C] (host : String) (req2 : Request B),
      isHttpsUri req = isHttpsUri req2 → isHttpsForwarded req = isHttpsForwarded req2 →
      (HttpsAndHostRedirect.redirect (C := C) (HttpsAndHostRedirect.new host) req =
          some (req, Except.ok ()) ↔
        HttpsAndHostRedirect.redirect (C := C) (HttpsAndHostRedirect.new host) req2 =
          some (req2, Except.ok ()))) := by
  refine ⟨?_, ?_, ?_, ?_⟩
  · intro h
    simp [isHttpsForwarded, h]
  · intro v hv hstr
    simp [isHttpsForwarded, hv, hstr]
  · intro v s hv hstr
    simp [isHttpsForwarded, hv, hstr]
  · intro C _ host req2 h1 h2
    rw [redirect_continue_iff, redirect_continue_iff, h1, h2]

/-- C10 witness: a missing header, the invalid byte 200, and the upper-case
value `HTTPS` all count as not forwarded-secure, and two requests agreeing on
both secure tests get the same decision. -/
theorem c10_forwarded_value_total_case_sensitive_witness :
    isHttpsForwarded plainHttpRequest = false ∧
    isHttpsForwarded badBytesRequest = false ∧
    isHttpsForwarded upperCaseRequest = ("HTTPS" == "https") ∧
    (HttpsAndHostRedirect.redirect (C := Unit) (HttpsAndHostRedirect.new "localhost")
        upperCaseRequest = some (upperCaseRequest, Except.ok ()) ↔
      HttpsAndHostRedirect.redirect (C := Unit) (HttpsAndHostRedirect.new "localhost")
        badBytesRequest = some (badBytesRequest, Except.ok ())) :=
  ⟨(c10_forwarded_value_total_case_sensitive plainHttpRequest).1 rfl,
   (c10_forwarded_value_total_case_sensitive badBytesRequest).2.1 [200] rfl rfl,
   (c10_forwarded_value_total_case_sensitive upperCaseRequest).2.2.1
      upperHttpsBytes "HTTPS" rfl rfl,
   (c10_forwarded_value_total_case_sensitive upperCaseRequest).2.2.2
      Unit "localhost" badBytesRequest rfl rfl⟩

end HttpRedirect
